import Mathlib

/-!
Verification development for the Tidal NG subsystem of this repository:
the configuration manager (bot/helpers/tidal_ng/config_manager.py) and the
enhanced download handler (bot/helpers/tidal_ng/enhanced_handler.py).

Python values that can appear in the settings JSON and in configuration
fields are modelled by `PyVal` (ints, bools, strings).  Python dicts are
modelled either as association lists (where insertion order matters to the
code) or as maps `String → Option PyVal` (where only lookup matters).
File-system effects are modelled by explicit state passing; code that can
raise an exception to its caller returns `Except`.
-/

/-- A dynamically typed Python value as it occurs in the settings store. -/
inductive PyVal where
  | int (n : Int)
  | bool (b : Bool)
  | str (s : String)
  deriving DecidableEq, Repr

/-- Python truthiness: `bool(v)` for ints, bools and strings. -/
def pyTruthy : PyVal → Bool
  | .int n => n != 0
  | .bool b => b
  | .str s => s != ""

/-- Python `isinstance(v, int)`.  `bool` is a subclass of `int` in Python,
so booleans pass this check. -/
def pyIsInstInt : PyVal → Bool
  | .int _ => true
  | .bool _ => true
  | .str _ => false

/-- Python `isinstance(v, bool)`. -/
def pyIsInstBool : PyVal → Bool
  | .bool _ => true
  | _ => false

/-- The numeric value used by Python comparison operators; booleans count
as 0/1, strings have none (comparing them with an int raises TypeError). -/
def pyNum : PyVal → Option Int
  | .int n => some n
  | .bool b => some (if b then 1 else 0)
  | .str _ => none

/-- Total variant of `pyNum`, used only under a `pyIsInstInt` guard. -/
def pyIntOf : PyVal → Int
  | .int n => n
  | .bool b => if b then 1 else 0
  | .str _ => 0

/-- Python `str(v)`. -/
def pyToStr : PyVal → String
  | .int n => toString n
  | .bool b => if b then "True" else "False"
  | .str s => s

/-- The `TidalNGConfig` dataclass from config_manager.py, with its default
field values.  Fields are `PyVal` because Python setattr can store a value
of any runtime type in any field. -/
structure TidalNGConfig where
  download_base_path : PyVal := .str "~/download"
  downloads_concurrent_max : PyVal := .int 3
  downloads_simultaneous_per_track_max : PyVal := .int 1
  download_delay : PyVal := .bool false
  quality_audio : PyVal := .str "LOSSLESS"
  quality_video : PyVal := .str "1080"
  lyrics_embed : PyVal := .bool true
  lyrics_file : PyVal := .bool true
  metadata_cover_embed : PyVal := .bool true
  metadata_cover_dimension : PyVal := .int 1200
  cover_album_file : PyVal := .bool true
  metadata_replay_gain : PyVal := .bool true
  skip_existing : PyVal := .bool true
  extract_flac : PyVal := .bool true
  symlink_to_track : PyVal := .bool false
  video_download : PyVal := .bool true
  video_convert_mp4 : PyVal := .bool true
  playlist_create : PyVal := .bool true
  album_track_num_pad_min : PyVal := .int 2
  path_binary_ffmpeg : PyVal := .str "/usr/bin/ffmpeg"
  retry_attempts : PyVal := .int 3
  timeout_seconds : PyVal := .int 300
  chunk_size : PyVal := .int 1048576
  deriving DecidableEq, Repr

/-- `TidalNGConfig()` with all defaults. -/
def TidalNGConfig.defaults : TidalNGConfig := {}

/-- `[q.value for q in QualityAudio]`. -/
def audioQualityValues : List PyVal :=
  [.str "LOW", .str "HIGH", .str "LOSSLESS", .str "HI_RES_LOSSLESS"]

/-- `[q.value for q in QualityVideo]`. -/
def videoQualityValues : List PyVal :=
  [.str "360", .str "480", .str "720", .str "1080"]

/-- The configuration fields, in dataclass declaration order. -/
inductive CfgField where
  | download_base_path
  | downloads_concurrent_max
  | downloads_simultaneous_per_track_max
  | download_delay
  | quality_audio
  | quality_video
  | lyrics_embed
  | lyrics_file
  | metadata_cover_embed
  | metadata_cover_dimension
  | cover_album_file
  | metadata_replay_gain
  | skip_existing
  | extract_flac
  | symlink_to_track
  | video_download
  | video_convert_mp4
  | playlist_create
  | album_track_num_pad_min
  | path_binary_ffmpeg
  | retry_attempts
  | timeout_seconds
  | chunk_size
  deriving DecidableEq, Repr

/-- The JSON key naming each dataclass field. -/
def CfgField.name : CfgField → String
  | .download_base_path => "download_base_path"
  | .downloads_concurrent_max => "downloads_concurrent_max"
  | .downloads_simultaneous_per_track_max => "downloads_simultaneous_per_track_max"
  | .download_delay => "download_delay"
  | .quality_audio => "quality_audio"
  | .quality_video => "quality_video"
  | .lyrics_embed => "lyrics_embed"
  | .lyrics_file => "lyrics_file"
  | .metadata_cover_embed => "metadata_cover_embed"
  | .metadata_cover_dimension => "metadata_cover_dimension"
  | .cover_album_file => "cover_album_file"
  | .metadata_replay_gain => "metadata_replay_gain"
  | .skip_existing => "skip_existing"
  | .extract_flac => "extract_flac"
  | .symlink_to_track => "symlink_to_track"
  | .video_download => "video_download"
  | .video_convert_mp4 => "video_convert_mp4"
  | .playlist_create => "playlist_create"
  | .album_track_num_pad_min => "album_track_num_pad_min"
  | .path_binary_ffmpeg => "path_binary_ffmpeg"
  | .retry_attempts => "retry_attempts"
  | .timeout_seconds => "timeout_seconds"
  | .chunk_size => "chunk_size"

/-- Resolving a string key to a dataclass field, as Python attribute lookup
does (`hasattr` / the key chains in `_validate_value`). -/
def keyField (key : String) : Option CfgField :=
  if key = "download_base_path" then some .download_base_path
  else if key = "downloads_concurrent_max" then some .downloads_concurrent_max
  else if key = "downloads_simultaneous_per_track_max" then some .downloads_simultaneous_per_track_max
  else if key = "download_delay" then some .download_delay
  else if key = "quality_audio" then some .quality_audio
  else if key = "quality_video" then some .quality_video
  else if key = "lyrics_embed" then some .lyrics_embed
  else if key = "lyrics_file" then some .lyrics_file
  else if key = "metadata_cover_embed" then some .metadata_cover_embed
  else if key = "metadata_cover_dimension" then some .metadata_cover_dimension
  else if key = "cover_album_file" then some .cover_album_file
  else if key = "metadata_replay_gain" then some .metadata_replay_gain
  else if key = "skip_existing" then some .skip_existing
  else if key = "extract_flac" then some .extract_flac
  else if key = "symlink_to_track" then some .symlink_to_track
  else if key = "video_download" then some .video_download
  else if key = "video_convert_mp4" then some .video_convert_mp4
  else if key = "playlist_create" then some .playlist_create
  else if key = "album_track_num_pad_min" then some .album_track_num_pad_min
  else if key = "path_binary_ffmpeg" then some .path_binary_ffmpeg
  else if key = "retry_attempts" then some .retry_attempts
  else if key = "timeout_seconds" then some .timeout_seconds
  else if key = "chunk_size" then some .chunk_size
  else none

/-- Reading one dataclass field. -/
def TidalNGConfig.get (c : TidalNGConfig) : CfgField → PyVal
  | .download_base_path => c.download_base_path
  | .downloads_concurrent_max => c.downloads_concurrent_max
  | .downloads_simultaneous_per_track_max => c.downloads_simultaneous_per_track_max
  | .download_delay => c.download_delay
  | .quality_audio => c.quality_audio
  | .quality_video => c.quality_video
  | .lyrics_embed => c.lyrics_embed
  | .lyrics_file => c.lyrics_file
  | .metadata_cover_embed => c.metadata_cover_embed
  | .metadata_cover_dimension => c.metadata_cover_dimension
  | .cover_album_file => c.cover_album_file
  | .metadata_replay_gain => c.metadata_replay_gain
  | .skip_existing => c.skip_existing
  | .extract_flac => c.extract_flac
  | .symlink_to_track => c.symlink_to_track
  | .video_download => c.video_download
  | .video_convert_mp4 => c.video_convert_mp4
  | .playlist_create => c.playlist_create
  | .album_track_num_pad_min => c.album_track_num_pad_min
  | .path_binary_ffmpeg => c.path_binary_ffmpeg
  | .retry_attempts => c.retry_attempts
  | .timeout_seconds => c.timeout_seconds
  | .chunk_size => c.chunk_size

/-- `setattr` on one dataclass field. -/
def TidalNGConfig.setField (c : TidalNGConfig) (f : CfgField) (v : PyVal) : TidalNGConfig :=
  match f with
  | .download_base_path => { c with download_base_path := v }
  | .downloads_concurrent_max => { c with downloads_concurrent_max := v }
  | .downloads_simultaneous_per_track_max => { c with downloads_simultaneous_per_track_max := v }
  | .download_delay => { c with download_delay := v }
  | .quality_audio => { c with quality_audio := v }
  | .quality_video => { c with quality_video := v }
  | .lyrics_embed => { c with lyrics_embed := v }
  | .lyrics_file => { c with lyrics_file := v }
  | .metadata_cover_embed => { c with metadata_cover_embed := v }
  | .metadata_cover_dimension => { c with metadata_cover_dimension := v }
  | .cover_album_file => { c with cover_album_file := v }
  | .metadata_replay_gain => { c with metadata_replay_gain := v }
  | .skip_existing => { c with skip_existing := v }
  | .extract_flac => { c with extract_flac := v }
  | .symlink_to_track => { c with symlink_to_track := v }
  | .video_download => { c with video_download := v }
  | .video_convert_mp4 => { c with video_convert_mp4 := v }
  | .playlist_create => { c with playlist_create := v }
  | .album_track_num_pad_min => { c with album_track_num_pad_min := v }
  | .path_binary_ffmpeg => { c with path_binary_ffmpeg := v }
  | .retry_attempts => { c with retry_attempts := v }
  | .timeout_seconds => { c with timeout_seconds := v }
  | .chunk_size => { c with chunk_size := v }

/-- The dataclass-field view of `setattr(config, key, value)`: a key naming
one of the 23 dataclass fields updates that field; any other key leaves the
record unchanged, because `TidalNGConfig` carries only the dataclass fields.
In Python a non-field key either creates a fresh instance attribute or
shadows an existing attribute (a method such as `validate` or `to_dict`, or
a class attribute such as `__dataclass_fields__`); which of those shadowing
effects are visible to the modelled code paths is classified by `attrKind`
below and handled in `set_value` and `load_config`, the two operations that
perform such a `setattr`. -/
def TidalNGConfig.setAttrKnown (c : TidalNGConfig) (key : String) (v : PyVal) : TidalNGConfig :=
  match keyField key with
  | some f => c.setField f v
  | none => c

/-- How `setattr(config, key, value)` with a non-callable value behaves for
a given key, as observed by the code paths modelled here. -/
inductive AttrKind where
  /-- One of the 23 dataclass fields: a normal field update. -/
  | field (f : CfgField)
  /-- The key `validate`: the instance attribute shadows the bound method,
  so the next `config.validate()` call (in `save_config`, and in
  `load_config` after `from_dict`) raises TypeError. -/
  | shadowsValidate
  /-- The keys `to_dict` and `__dataclass_fields__`: the instance attribute
  shadows what `config.to_dict()` needs, so the serialization call inside
  `save_config` raises TypeError; the load path never reads either. -/
  | shadowsSerialize
  /-- The keys `__class__`, `__dict__` and `__weakref__`: these are guarded
  descriptors, so the `setattr` itself raises for the values modelled here
  (a non-class, a non-dict, a read-only attribute). -/
  | setattrRaises
  /-- Everything else: either no attribute of that name exists beforehand,
  or the shadowed attribute is never read by a modelled code path (for
  example `from_dict` is only ever accessed on the class, and dunder
  methods invoked implicitly are looked up on the type, not the
  instance). -/
  | inert
  deriving DecidableEq, Repr

/-- Classify a `setattr` key. -/
def attrKind (key : String) : AttrKind :=
  match keyField key with
  | some f => .field f
  | none =>
      if key = "validate" then .shadowsValidate
      else if key = "to_dict" ∨ key = "__dataclass_fields__" then .shadowsSerialize
      else if key = "__class__" ∨ key = "__dict__" ∨ key = "__weakref__" then .setattrRaises
      else .inert

/-- `TidalNGConfig.to_dict`: the JSON object, keys in dataclass order. -/
def TidalNGConfig.to_dict (c : TidalNGConfig) : List (String × PyVal) :=
  [("download_base_path", c.download_base_path),
   ("downloads_concurrent_max", c.downloads_concurrent_max),
   ("downloads_simultaneous_per_track_max", c.downloads_simultaneous_per_track_max),
   ("download_delay", c.download_delay),
   ("quality_audio", c.quality_audio),
   ("quality_video", c.quality_video),
   ("lyrics_embed", c.lyrics_embed),
   ("lyrics_file", c.lyrics_file),
   ("metadata_cover_embed", c.metadata_cover_embed),
   ("metadata_cover_dimension", c.metadata_cover_dimension),
   ("cover_album_file", c.cover_album_file),
   ("metadata_replay_gain", c.metadata_replay_gain),
   ("skip_existing", c.skip_existing),
   ("extract_flac", c.extract_flac),
   ("symlink_to_track", c.symlink_to_track),
   ("video_download", c.video_download),
   ("video_convert_mp4", c.video_convert_mp4),
   ("playlist_create", c.playlist_create),
   ("album_track_num_pad_min", c.album_track_num_pad_min),
   ("path_binary_ffmpeg", c.path_binary_ffmpeg),
   ("retry_attempts", c.retry_attempts),
   ("timeout_seconds", c.timeout_seconds),
   ("chunk_size", c.chunk_size)]

/-- `TidalNGConfig.from_dict`, as the dataclass-field view of the record it
builds: start from defaults and set every key naming a dataclass field.
The source guard is `hasattr`, which is also true for method and class
attribute names, so such keys are `setattr`-ed and shadow those attributes;
the consequences that the modelled code paths can observe — `setattr`
raising on guarded descriptors, and the shadowed `validate` making
`load_config` raise — are modelled in `load_config` via `attrKind`, and a
shadowing attribute that no modelled path reads is not tracked. -/
def TidalNGConfig.from_dict (data : List (String × PyVal)) : TidalNGConfig :=
  data.foldl (fun c kv => c.setAttrKnown kv.1 kv.2) {}

/-- `TidalNGConfig.validate`.  Returns `some errors` in the order the checks
appear in the source; returns `none` when a numeric comparison is applied to
a non-numeric field value, which in Python raises TypeError out of
`validate` (discarding any errors collected earlier). -/
def TidalNGConfig.validate (c : TidalNGConfig) : Option (List String) :=
  match pyNum c.downloads_concurrent_max, pyNum c.metadata_cover_dimension,
        pyNum c.retry_attempts, pyNum c.timeout_seconds with
  | some conc, some dim, some retry, some tmo =>
      some
        ((if c.quality_audio ∈ audioQualityValues then []
          else ["Invalid audio quality: " ++ pyToStr c.quality_audio]) ++
         (if c.quality_video ∈ videoQualityValues then []
          else ["Invalid video quality: " ++ pyToStr c.quality_video]) ++
         (if conc ≤ 0 ∨ 10 < conc then ["Concurrent downloads must be between 1 and 10"] else []) ++
         (if dim ≤ 0 ∨ 5000 < dim then ["Cover dimension must be between 1 and 5000"] else []) ++
         (if retry < 0 ∨ 10 < retry then ["Retry attempts must be between 0 and 10"] else []) ++
         (if tmo ≤ 0 ∨ 3600 < tmo then ["Timeout must be between 1 and 3600 seconds"] else []) ++
         (if pyTruthy c.download_base_path then [] else ["Download base path is empty"]) ++
         (if pyTruthy c.path_binary_ffmpeg then [] else ["FFmpeg path is empty"]))
  | _, _, _, _ => none

/-- The per-key check of `TidalNGConfigManager._validate_value`, grouped by
the elif chains of the source.  The final `else: return True` of the source
corresponds to `chunk_size` here and to unknown keys in `validateValue`. -/
def fieldCheck (f : CfgField) (v : PyVal) : Bool :=
  match f with
  | .quality_audio => decide (v ∈ audioQualityValues)
  | .quality_video => decide (v ∈ videoQualityValues)
  | .downloads_concurrent_max | .downloads_simultaneous_per_track_max
  | .metadata_cover_dimension | .album_track_num_pad_min | .retry_attempts =>
      pyIsInstInt v && decide (0 < pyIntOf v)
  | .timeout_seconds => pyIsInstInt v && decide (1 ≤ pyIntOf v ∧ pyIntOf v ≤ 3600)
  | .lyrics_embed | .lyrics_file | .metadata_cover_embed | .cover_album_file
  | .metadata_replay_gain | .skip_existing | .extract_flac | .symlink_to_track
  | .video_download | .video_convert_mp4 | .playlist_create | .download_delay =>
      pyIsInstBool v
  | .download_base_path | .path_binary_ffmpeg =>
      (match v with | .str s => decide (0 < s.length) | _ => false)
  | .chunk_size => true

/-- `TidalNGConfigManager._validate_value(key, value)`. -/
def validateValue (key : String) (v : PyVal) : Bool :=
  match keyField key with
  | some f => fieldCheck f v
  | none => true

/-! ## Configuration manager state model -/

/-- The state of the persisted settings file.  `unreadable` is a file that
exists but whose open/read raises an OSError (for instance a permission
error); `corrupt` is a readable file whose contents fail JSON parsing. -/
inductive FileState where
  | missing
  | unreadable
  | corrupt
  | content (data : List (String × PyVal))
  deriving DecidableEq, Repr

/-- The observable state of a `TidalNGConfigManager`: the settings file on
disk, the in-memory working configuration (`self._config`), and the backup
copies taken so far (newest first; only their contents are tracked, not the
timestamped names). -/
structure MgrState where
  disk : FileState
  working : Option TidalNGConfig
  backups : List FileState
  deriving DecidableEq, Repr

/-- Whether a parsed settings object contains a key that makes the load
path raise: `__class__`, `__dict__` or `__weakref__` make the `setattr`
inside `from_dict` raise TypeError, and `validate` shadows the method that
`load_config` calls right after `from_dict`, raising TypeError there.
Neither exception is caught by `except (json.JSONDecodeError, KeyError)`. -/
def loadShadowRaises (d : List (String × PyVal)) : Bool :=
  d.any (fun kv =>
    kv.1 == "validate" || kv.1 == "__class__" || kv.1 == "__dict__" ||
      kv.1 == "__weakref__")

/-- `TidalNGConfigManager.load_config`.  Missing file and JSON parse errors
are handled (defaults are returned); an OSError while opening or reading the
file is not caught by the `except (json.JSONDecodeError, KeyError)` clause
and propagates, as do the TypeErrors raised by a method-shadowing key in
the parsed object (`loadShadowRaises`) or by `validate` comparing a
non-numeric loaded field value.  A key shadowing only the save path (such
as `to_dict`) loads without raising; the shadowing attribute it leaves on
the in-memory object is outside this record state space and no theorem
relies on a subsequent save of such a record. -/
def TidalNGConfigManager.load_config (st : MgrState) :
    Except String (TidalNGConfig × MgrState) :=
  match st.disk with
  | .missing => .ok (TidalNGConfig.defaults, { st with working := some TidalNGConfig.defaults })
  | .unreadable => .error "OSError: settings file could not be read"
  | .corrupt => .ok (TidalNGConfig.defaults, { st with working := some TidalNGConfig.defaults })
  | .content d =>
      if loadShadowRaises d then
        .error "TypeError: settings key shadows a configuration attribute"
      else
        let c := TidalNGConfig.from_dict d
        match c.validate with
        | none => .error "TypeError raised while validating the loaded configuration"
        | some _errs => .ok (c, { st with working := some c })

/-- `TidalNGConfigManager._backup_config`: copy the current settings file
into the backups directory.  Nothing is copied when the file is missing; a
copy failure (unreadable source) is caught and logged. -/
def TidalNGConfigManager.backupStep (st : MgrState) : MgrState :=
  match st.disk with
  | .missing => st
  | .unreadable => st
  | d => { st with backups := d :: st.backups }

/-- `TidalNGConfigManager.save_config`.  Fails closed: a validation error
list (or a TypeError inside `validate`, caught by the enclosing
`except Exception`) returns failure with no state change; otherwise a backup
is taken and the new record is written via temp-file-plus-atomic-rename,
modelled as directly replacing the disk contents. -/
def TidalNGConfigManager.save_config (st : MgrState) (arg : Option TidalNGConfig) :
    Bool × MgrState :=
  let cfg := match arg with
    | some c => c
    | none => match st.working with
      | some c => c
      | none => TidalNGConfig.defaults
  match cfg.validate with
  | none => (false, st)
  | some (_ :: _) => (false, st)
  | some [] =>
      let st1 := TidalNGConfigManager.backupStep st
      (true, { st1 with disk := .content cfg.to_dict, working := some cfg })

/-- `TidalNGConfigManager.set_value`.  Loads the configuration first when no
working copy exists (which can propagate an exception from `load_config`),
then checks `_validate_value`; on success it mutates the working copy in
place with `setattr` and delegates to `save_config`.  A key for which the
`setattr` itself raises is caught by the `except` of `set_value` and fails;
a key shadowing `validate` makes `config.validate()` raise inside
`save_config` (caught there, before any backup) and fails; a key shadowing
the serialization attributes passes validation, takes a backup when the
record is valid, and then fails when `config.to_dict()` raises (caught by
`save_config`; the stray temporary file it may leave is not part of this
state space, and the atomic replace never runs).  In the shadowing cases
the in-memory object carries the shadowing attribute, which is outside
this record state space; no theorem relies on further operations against
such a state. -/
def TidalNGConfigManager.set_value (st : MgrState) (key : String) (v : PyVal) :
    Except String (Bool × MgrState) := do
  let (c, st1) ← match st.working with
    | some c => Except.ok (c, st)
    | none => TidalNGConfigManager.load_config st
  if validateValue key v then
    match attrKind key with
    | .setattrRaises => Except.ok (false, st1)
    | .shadowsValidate => Except.ok (false, st1)
    | .shadowsSerialize =>
        match c.validate with
        | some [] => Except.ok (false, TidalNGConfigManager.backupStep st1)
        | _ => Except.ok (false, st1)
    | _ =>
        let c2 := c.setAttrKnown key v
        let st2 := { st1 with working := some c2 }
        Except.ok (TidalNGConfigManager.save_config st2 none)
  else
    Except.ok (false, st1)

/-- A backup file in the backups directory, newest first in the listings
passed to the cleanup sweep.  `deleteFails` marks a file whose `unlink`
raises (for instance because permissions changed). -/
structure BackupFile where
  name : String
  deleteFails : Bool
  deriving DecidableEq, Repr

/-- The deletion loop of `cleanup_old_backups`: the whole `for` loop sits
inside one `try`, so the first failing `unlink` jumps to the `except`
handler and ends the sweep.  Returns the files actually deleted, in order. -/
def deleteSweep : List BackupFile → List BackupFile
  | [] => []
  | b :: rest => if b.deleteFails then [] else b :: deleteSweep rest

/-- `TidalNGConfigManager.cleanup_old_backups(keep_count)` applied to the
backup files sorted newest first; returns the deleted files. -/
def TidalNGConfigManager.cleanup_old_backups (keep_count : Nat)
    (backupsNewestFirst : List BackupFile) : List BackupFile :=
  deleteSweep (backupsNewestFirst.drop keep_count)

/-! ## Enhanced handler: progress translation -/

/-- A structured progress signal emitted to the progress reporter by
`TidalNGDownloader._parse_progress`. -/
inductive ProgressEvent where
  | stage (s : String)
  | percent (n : Nat)
  | tracks (done total : Nat)
  deriving DecidableEq, Repr

/-- Substring occurrence on character lists: `pat` occurs contiguously in
`hay`. -/
def listContains (hay pat : List Char) : Bool :=
  pat.isPrefixOf hay ||
    (match hay with
     | [] => false
     | _ :: t => listContains t pat)

/-- Python substring containment, `pat in s`. -/
def containsSub (s pat : String) : Bool :=
  listContains s.toList pat.toList

/-- The stage keyword chain of `_parse_progress` (case-sensitive substring
matches, first branch wins). -/
def stageEvents (line : String) : List ProgressEvent :=
  if containsSub line "Downloading" || containsSub line "Download" then
    [.stage "Downloading..."]
  else if containsSub line "Processing" || containsSub line "Process" then
    [.stage "Processing..."]
  else if containsSub line "Converting" || containsSub line "Convert" then
    [.stage "Converting..."]
  else if containsSub line "Extracting" || containsSub line "Extract" then
    [.stage "Extracting..."]
  else if containsSub line "Complete" || containsSub line "Finished" || containsSub line "Success" then
    [.stage "Download complete!"]
  else if containsSub line "Error" || containsSub line "Failed" then
    [.stage ("Error: " ++ line.take 50 ++ "...")]
  else []

/-- Numeric value of a digit run, as Python `int` on the matched group. -/
def digitsToNat (ds : List Char) : Nat :=
  ds.foldl (fun n c => 10 * n + (c.toNat - '0'.toNat)) 0

/-- Leftmost match of the regex `(\d+)%`: scan left to right; at a digit,
take the maximal digit run and require the following character to be the
percent sign. -/
def firstPercentAux : List Char → Option Nat
  | [] => none
  | c :: rest =>
      if c.isDigit then
        match (c :: rest).dropWhile Char.isDigit with
        | '%' :: _ => some (digitsToNat ((c :: rest).takeWhile Char.isDigit))
        | _ => firstPercentAux rest
      else firstPercentAux rest

/-- Leftmost match of the regex `(\d+)/(\d+)`: at a digit, take the maximal
digit run, require a slash, then a nonempty digit run. -/
def firstFractionAux : List Char → Option (Nat × Nat)
  | [] => none
  | c :: rest =>
      if c.isDigit then
        match (c :: rest).dropWhile Char.isDigit with
        | '/' :: rest2 =>
            match rest2.takeWhile Char.isDigit with
            | [] => firstFractionAux rest
            | run2 => some (digitsToNat ((c :: rest).takeWhile Char.isDigit), digitsToNat run2)
        | _ => firstFractionAux rest
      else firstFractionAux rest

/-- `TidalNGDownloader._parse_progress` as the list of events it pushes to
the progress reporter for one output line: the stage keyword chain, then at
most one percent event for the first percent token, then at most one
tracks event for the first fraction token. -/
def parseProgress (line : String) : List ProgressEvent :=
  stageEvents line ++
    (match firstPercentAux line.toList with
     | some n => [.percent n]
     | none => []) ++
    (match firstFractionAux line.toList with
     | some (a, b) => [.tracks a b]
     | none => [])

/-! ## Enhanced handler: result classification -/

/-- One per-file metadata record, reduced to the field the classifier
reads: the value of `item.get("album", "")` (`none` when the extractor
produced no album key). -/
structure MetaItem where
  album : Option String
  deriving DecidableEq, Repr

/-- `item.get("album", "")`. -/
def albumLabel (it : MetaItem) : String := it.album.getD ""

/-- `f.lower().endswith((".mp4", ".m4v"))`. -/
def isVideoFile (f : String) : Bool :=
  f.toLower.endsWith ".mp4" || f.toLower.endsWith ".m4v"

/-- Python `set(...)` built from a list, retaining first occurrences; only
its cardinality and sole element are consumed by the classifier. -/
def pySet : List String → List String
  | [] => []
  | x :: xs => x :: pySet (xs.filter (fun y => y ≠ x))
  termination_by l => l.length
  decreasing_by
    simp only [List.length_cons]
    exact Nat.lt_succ_of_le (List.length_filter_le _ _)

/-- `TidalNGDownloader._determine_content_type`. -/
def determineContentType (items : List MetaItem) (files : List String) : String :=
  if items.isEmpty then "unknown"
  else if files.any isVideoFile && items.length == 1 then "video"
  else if 1 < items.length then
    let albums := pySet (items.map albumLabel)
    if albums.length == 1 && !(albums.headD "" == "") then "album" else "playlist"
  else "track"

/-! ## Enhanced handler: session overlay and options -/

/-- Python `int(v)`: identity on ints, 0/1 on bools, digit parsing on
strings (`none` models the ValueError raised on a non-numeric string). -/
def pyToIntCoerce : PyVal → Option Int
  | .int n => some n
  | .bool b => some (if b then 1 else 0)
  | .str s =>
      let t := s.trim
      let core := if t.startsWith "-" then t.drop 1 else t
      if core.length > 0 && core.toList.all Char.isDigit then
        some (if t.startsWith "-" then -(core.toNat!) else (core.toNat! : Int))
      else none

/-- The ten recognized per-request override option keys of
`TidalNGDownloader._parse_options`. -/
def recognizedOptionKeys : List String :=
  ["quality", "video_quality", "lyrics", "cover", "playlist",
   "concurrent", "flac", "video", "convert", "skip"]

/-- The `parsed` dict produced by `_parse_options`, as a lookup map on the
mapped setting names: flag-like options are coerced with `bool(...)`,
`concurrent` is clamped into 1..10, quality options pass through. -/
def parsedOptionsMap (opts : String → Option PyVal) (conc : Option Int) :
    String → Option PyVal := fun t =>
  if t = "quality_audio" then opts "quality"
  else if t = "quality_video" then opts "video_quality"
  else if t = "lyrics_embed" then (opts "lyrics").map (fun v => .bool (pyTruthy v))
  else if t = "metadata_cover_embed" then (opts "cover").map (fun v => .bool (pyTruthy v))
  else if t = "playlist_create" then (opts "playlist").map (fun v => .bool (pyTruthy v))
  else if t = "downloads_concurrent_max" then conc.map PyVal.int
  else if t = "extract_flac" then (opts "flac").map (fun v => .bool (pyTruthy v))
  else if t = "video_download" then (opts "video").map (fun v => .bool (pyTruthy v))
  else if t = "video_convert_mp4" then (opts "convert").map (fun v => .bool (pyTruthy v))
  else if t = "skip_existing" then (opts "skip").map (fun v => .bool (pyTruthy v))
  else none

/-- `TidalNGDownloader._parse_options`: options outside the mapping table
are dropped; `int(...)` on the `concurrent` value may raise ValueError,
which propagates to the caller. -/
def parseOptions (opts : String → Option PyVal) :
    Except String (String → Option PyVal) :=
  match opts "concurrent" with
  | none => .ok (parsedOptionsMap opts none)
  | some v =>
      match pyToIntCoerce v with
      | none => .error "ValueError: invalid literal for int"
      | some n => .ok (parsedOptionsMap opts (some (max 1 (min 10 n))))

/-- The session-safe defaults forced by `_apply_download_settings` before
user overrides are applied. -/
def forcedOverlay (downloadPath : String) : String → Option PyVal := fun k =>
  if k = "download_base_path" then some (.str downloadPath)
  else if k = "path_binary_ffmpeg" then some (.str "/usr/bin/ffmpeg")
  else if k = "downloads_concurrent_max" then some (.int 3)
  else if k = "downloads_simultaneous_per_track_max" then some (.int 1)
  else if k = "skip_existing" then some (.bool true)
  else if k = "lyrics_embed" then some (.bool true)
  else if k = "metadata_cover_embed" then some (.bool true)
  else if k = "extract_flac" then some (.bool true)
  else if k = "playlist_create" then some (.bool true)
  else if k = "video_download" then some (.bool true)
  else if k = "video_convert_mp4" then some (.bool true)
  else none

/-- `TidalNGDownloader._apply_download_settings` as the settings map written
to disk: the entry snapshot, overridden by the forced defaults, overridden
by the parsed user options.  A ValueError from option parsing propagates
(the settings file is not written in that case). -/
def applyDownloadSettings (snapshot : String → Option PyVal) (downloadPath : String)
    (opts : Option (String → Option PyVal)) :
    Except String (String → Option PyVal) :=
  let base : String → Option PyVal := fun k =>
    match forcedOverlay downloadPath k with
    | some v => some v
    | none => snapshot k
  match opts with
  | none => .ok base
  | some o => do
      let parsed ← parseOptions o
      .ok (fun k =>
        match parsed k with
        | some v => some v
        | none => base k)

/-! ## Enhanced handler: process supervision and the download session -/

/-- `asyncio.gather` over the monitoring tasks: the first exception (in task
order) is the one the surrounding `try` observes. -/
def gatherMonitors (rs : List (Except String Unit)) : Except String Unit :=
  rs.foldl
    (fun acc r =>
      match acc with
      | .error e => .error e
      | .ok _ => r)
    (.ok ())

/-- `TidalNGDownloader._execute_download`, reduced to its result
computation: the monitoring tasks are gathered, any exception is caught and
logged, then the process exit is awaited and the flag is the comparison of
the exit code with zero. -/
def executeDownload (exitCode : Int) (monitorResults : List (Except String Unit)) : Bool :=
  match gatherMonitors monitorResults with
  | .ok _ => exitCode == 0
  | .error _ => exitCode == 0

/-- The terminal status values of `DownloadStatus` that a finished session
can carry. -/
inductive DownloadStatus where
  | pending
  | downloading
  | processing
  | completed
  | failed
  | cancelled
  deriving DecidableEq, Repr

/-- The settings file consumed and produced by the enhanced handler
(`TIDAL_DL_NG_SETTINGS_PATH`), with its payload as a lookup map.  The
handler never meets an unreadable file without raising out of session
entry, so only these three states take part in a started session. -/
inductive SettingsFile where
  | missing
  | corrupt
  | content (data : String → Option PyVal)

/-- `TidalNGDownloader._backup_settings`: the snapshot taken at session
entry; a missing file (FileNotFoundError) or an unparsable one
(JSONDecodeError) is caught and yields the empty dict. -/
def snapshotOf : SettingsFile → (String → Option PyVal)
  | .missing => fun _ => none
  | .corrupt => fun _ => none
  | .content d => d

/-- The environment of one supervised download session: everything outside
the settings file that decides which exit path `download()` takes.
`taskCancelled` is an `asyncio.CancelledError` delivered while the child is
being supervised; `bodyRaises` is an unexpected exception inside
`download()` after the overlay was written; `uploadRaises` is an exception
in the post-download handler body (history recording or upload), which the
outer handler catches after the context manager has already exited. -/
structure SessionEnv where
  downloadPath : String
  taskCancelled : Bool
  bodyRaises : Bool
  exitCode : Int
  files : List String
  items : List MetaItem
  uploadRaises : Bool

/-- One run of the session orchestrator from the point the
`TidalNGDownloader` context is entered (`start_tidal_ng_enhanced`, inner
`async with` block): snapshot the settings file, write the session overlay,
supervise the child, collect and classify, and on `__aexit__` write the
snapshot back.  Returns the final settings file together with the terminal
status of the produced result.  The restore write is modelled as
succeeding. -/
def runSession (f0 : SettingsFile) (opts : Option (String → Option PyVal))
    (env : SessionEnv) : SettingsFile × DownloadStatus :=
  let snap := snapshotOf f0
  let status :=
    match applyDownloadSettings snap env.downloadPath opts with
    | .error _ => DownloadStatus.failed
    | .ok _overlay =>
        if env.taskCancelled then DownloadStatus.cancelled
        else if env.bodyRaises then DownloadStatus.failed
        else if env.exitCode != 0 then DownloadStatus.failed
        else if env.files.isEmpty then DownloadStatus.failed
        else if env.items.isEmpty then DownloadStatus.failed
        else DownloadStatus.completed
  (SettingsFile.content snap, status)

/-! ## Theorems -/

/-- Claim C1: every download session started by the orchestrator, on every
exit path (failure during overlay application, cancellation, monitoring or
body exception, process failure, empty results, or completion), leaves the
persisted settings file restored to the snapshot taken at session entry;
and a missing or unparsable settings file at entry yields the empty
snapshot rather than a fatal error. -/
theorem session_restores_entry_snapshot (f0 : SettingsFile)
    (opts : Option (String → Option PyVal)) (env : SessionEnv) :
    (runSession f0 opts env).1 = SettingsFile.content (snapshotOf f0)
    ∧ snapshotOf SettingsFile.missing = (fun _ => none)
    ∧ snapshotOf SettingsFile.corrupt = (fun _ => none) :=
  ⟨rfl, rfl, rfl⟩

/-- Claim C4: the supervisor returns true exactly when the child exit code
is 0, and the outcome of the monitoring tasks (including a raised
exception) does not change the returned result. -/
theorem executeDownload_result_iff_exit_zero (exitCode : Int)
    (rs : List (Except String Unit)) :
    (executeDownload exitCode rs = true ↔ exitCode = 0)
    ∧ ∀ rs2, executeDownload exitCode rs = executeDownload exitCode rs2 := by
  constructor
  · unfold executeDownload
    cases gatherMonitors rs <;> simp
  · intro rs2
    unfold executeDownload
    cases gatherMonitors rs <;> cases gatherMonitors rs2 <;> rfl

/-- Claim C9 counterexample: with three backups sorted newest first and
`keep = 1`, a deletion failure on the second backup ends the sweep, so the
third backup — beyond the keep position and itself deletable — is not
deleted, contrary to the claim that every other backup beyond the keep
position is still deleted. -/
theorem cleanup_counterexample :
    TidalNGConfigManager.cleanup_old_backups 1
        [⟨"settings.backup.20250103-000000.json", false⟩,
         ⟨"settings.backup.20250102-000000.json", true⟩,
         ⟨"settings.backup.20250101-000000.json", false⟩] = []
    ∧ (⟨"settings.backup.20250101-000000.json", false⟩ : BackupFile) ∈
        ([⟨"settings.backup.20250103-000000.json", false⟩,
          ⟨"settings.backup.20250102-000000.json", true⟩,
          ⟨"settings.backup.20250101-000000.json", false⟩] :
          List BackupFile).drop 1
    ∧ (⟨"settings.backup.20250101-000000.json", false⟩ : BackupFile).deleteFails = false := by
  decide

theorem deleteSweep_eq_takeWhile (l : List BackupFile) :
    deleteSweep l = l.takeWhile (fun b => !b.deleteFails) := by
  induction l with
  | nil => rfl
  | cons b rest ih =>
      by_cases hb : b.deleteFails = true <;>
        simp [deleteSweep, List.takeWhile_cons, hb, ih]

/-- Claim C9 amended: the sweep deletes the backups beyond position `keep`
in order only up to the first deletion failure — the failure is caught and
logged rather than raised, but it aborts the remainder of the sweep; when
no deletion fails, all backups beyond position `keep` are deleted. -/
theorem cleanup_best_effort_prefix :
    (∀ (keep : Nat) (bs : List BackupFile),
        TidalNGConfigManager.cleanup_old_backups keep bs =
          (bs.drop keep).takeWhile (fun b => !b.deleteFails))
    ∧ (∀ (keep : Nat) (names : List String),
        TidalNGConfigManager.cleanup_old_backups keep
            (names.map (fun n => ⟨n, false⟩)) =
          (names.map (fun n => (⟨n, false⟩ : BackupFile))).drop keep) := by
  constructor
  · intro keep bs
    exact deleteSweep_eq_takeWhile _
  · intro keep names
    rw [TidalNGConfigManager.cleanup_old_backups, deleteSweep_eq_takeWhile,
      ← List.map_drop]
    generalize names.drop keep = l
    induction l with
    | nil => rfl
    | cons x xs ih => simp [List.takeWhile_cons, ih]

theorem pySet_eq_nil_iff (l : List String) : pySet l = [] ↔ l = [] := by
  cases l <;> simp [pySet]

theorem pySet_eq_singleton_iff (l : List String) (a : String) :
    pySet l = [a] ↔ (l ≠ [] ∧ ∀ x ∈ l, x = a) := by
  cases l with
  | nil => simp [pySet]
  | cons x xs =>
      have hstep : pySet (x :: xs) = x :: pySet (xs.filter (fun y => y ≠ x)) := by
        simp [pySet]
      rw [hstep]
      constructor
      · intro heq
        have hx : x = a := (List.cons_eq_cons.mp heq).1
        have hnil : pySet (xs.filter (fun y => y ≠ x)) = [] :=
          (List.cons_eq_cons.mp heq).2
        have hfil := (pySet_eq_nil_iff _).mp hnil
        rw [List.filter_eq_nil_iff] at hfil
        refine ⟨by simp, fun y hy => ?_⟩
        rcases List.mem_cons.mp hy with rfl | hy2
        · exact hx
        · have hyx : y = x := by
            have := hfil y hy2
            simpa using this
          rw [hyx]
          exact hx
      · rintro ⟨-, hall⟩
        have hx : x = a := hall x (by simp)
        have hfil : xs.filter (fun y => y ≠ x) = [] := by
          rw [List.filter_eq_nil_iff]
          intro y hy
          have hya : y = a := hall y (by simp [hy])
          simp [hya, hx]
        rw [hfil]
        simp [hx, pySet]

theorem album_cond_iff (items : List MetaItem) (h : items ≠ []) :
    ((pySet (items.map albumLabel)).length == 1 &&
      !((pySet (items.map albumLabel)).headD "" == "")) = true
    ↔ ∃ a, a ≠ "" ∧ ∀ it ∈ items, albumLabel it = a := by
  constructor
  · intro hb
    rw [Bool.and_eq_true] at hb
    obtain ⟨h1, h2⟩ := hb
    have h1' : (pySet (items.map albumLabel)).length = 1 := by simpa using h1
    obtain ⟨a, ha⟩ := List.length_eq_one.mp h1'
    refine ⟨a, ?_, ?_⟩
    · rw [ha] at h2
      simpa using h2
    · intro it hit
      exact (pySet_eq_singleton_iff _ _).mp ha |>.2 _ (List.mem_map_of_mem _ hit)
  · rintro ⟨a, ha, hall⟩
    have hlabels : items.map albumLabel ≠ [] := by
      simpa using h
    have hs : pySet (items.map albumLabel) = [a] := by
      refine (pySet_eq_singleton_iff _ _).mpr ⟨hlabels, fun x hx => ?_⟩
      obtain ⟨it, hit, rfl⟩ := List.mem_map.mp hx
      exact hall it hit
    simp [hs, ha]

/-- Claim C7: for a non-empty item list the classifier follows the decision
table in order — one item with a video-extension file present gives
`video`; more than one item gives `album` exactly when every item carries
one identical non-empty album label and `playlist` otherwise; the remaining
case gives `track`. -/
theorem determineContentType_decision_table (items : List MetaItem)
    (files : List String) (h : items ≠ []) :
    (items.length = 1 → files.any isVideoFile = true →
        determineContentType items files = "video")
    ∧ (items.length = 1 → files.any isVideoFile = false →
        determineContentType items files = "track")
    ∧ (1 < items.length →
        ((determineContentType items files = "album") ↔
            ∃ a, a ≠ "" ∧ ∀ it ∈ items, albumLabel it = a)
        ∧ ((determineContentType items files = "playlist") ↔
            ¬ ∃ a, a ≠ "" ∧ ∀ it ∈ items, albumLabel it = a)) := by
  have hne : items.isEmpty = false := by
    cases items
    · exact absurd rfl h
    · rfl
  refine ⟨?_, ?_, ?_⟩
  · intro hlen hvid
    simp [determineContentType, hne, hlen, hvid]
  · intro hlen hvid
    simp [determineContentType, hne, hlen, hvid]
  · intro hlen
    have hlen1 : (items.length == 1) = false := by
      simp only [beq_eq_false_iff_ne, ne_eq]
      omega
    have hcond := album_cond_iff items h
    by_cases hb : ((pySet (items.map albumLabel)).length == 1 &&
        !((pySet (items.map albumLabel)).headD "" == "")) = true
    · have hd : determineContentType items files = "album" := by
        rw [determineContentType, if_neg (by simp [hne]), if_neg (by simp [hlen1]),
          if_pos hlen]
        exact if_pos hb
      rw [hd]
      constructor
      · constructor
        · intro _
          exact hcond.mp hb
        · intro _
          rfl
      · constructor
        · intro hcontra
          exact absurd hcontra (by decide)
        · intro hp
          exact absurd (hcond.mp hb) hp
    · have hb' : ((pySet (items.map albumLabel)).length == 1 &&
          !((pySet (items.map albumLabel)).headD "" == "")) = false :=
        Bool.not_eq_true _ |>.mp hb
      have hd : determineContentType items files = "playlist" := by
        rw [determineContentType, if_neg (by simp [hne]), if_neg (by simp [hlen1]),
          if_pos hlen]
        exact if_neg hb
      rw [hd]
      constructor
      · constructor
        · intro hcontra
          exact absurd hcontra (by decide)
        · intro hp
          exact absurd (hcond.mpr hp) hb
      · constructor
        · intro _
          intro hp
          exact absurd (hcond.mpr hp) hb
        · intro _
          rfl

/-- Witness for the C7 decision-table theorem at a concrete input: two
items sharing the album label X, one audio file. -/
theorem determineContentType_decision_table_witness :
    (([⟨some "X"⟩, ⟨some "X"⟩] : List MetaItem) ≠ [])
    ∧ ((([⟨some "X"⟩, ⟨some "X"⟩] : List MetaItem).length = 1 →
          (["track.flac"].any isVideoFile) = true →
          determineContentType [⟨some "X"⟩, ⟨some "X"⟩] ["track.flac"] = "video")
      ∧ (([⟨some "X"⟩, ⟨some "X"⟩] : List MetaItem).length = 1 →
          (["track.flac"].any isVideoFile) = false →
          determineContentType [⟨some "X"⟩, ⟨some "X"⟩] ["track.flac"] = "track")
      ∧ (1 < ([⟨some "X"⟩, ⟨some "X"⟩] : List MetaItem).length →
          ((determineContentType [⟨some "X"⟩, ⟨some "X"⟩] ["track.flac"] = "album") ↔
              ∃ a, a ≠ "" ∧ ∀ it ∈ ([⟨some "X"⟩, ⟨some "X"⟩] : List MetaItem), albumLabel it = a)
          ∧ ((determineContentType [⟨some "X"⟩, ⟨some "X"⟩] ["track.flac"] = "playlist") ↔
              ¬ ∃ a, a ≠ "" ∧ ∀ it ∈ ([⟨some "X"⟩, ⟨some "X"⟩] : List MetaItem), albumLabel it = a))) :=
  ⟨by decide, determineContentType_decision_table _ _ (by decide)⟩

theorem listContains_iff (hay pat : List Char) :
    listContains hay pat = true ↔ pat <:+: hay := by
  induction hay with
  | nil =>
      simp only [listContains, Bool.or_false, List.isPrefixOf_iff_prefix]
      exact ⟨fun hp => hp.isInfix, fun hi => (List.infix_nil.mp hi) ▸ List.nil_prefix⟩
  | cons c t ih =>
      simp only [listContains, Bool.or_eq_true, List.isPrefixOf_iff_prefix, ih]
      rw [List.infix_cons_iff]

theorem firstPercentAux_cons_isSome (c : Char) (rest : List Char)
    (h : (firstPercentAux rest).isSome = true) :
    (firstPercentAux (c :: rest)).isSome = true := by
  rw [firstPercentAux]
  by_cases hc : c.isDigit = true
  · rw [if_pos hc]
    split
    · rfl
    · exact h
  · rw [if_neg hc]
    exact h

theorem firstPercentAux_append_isSome (pre l : List Char)
    (h : (firstPercentAux l).isSome = true) :
    (firstPercentAux (pre ++ l)).isSome = true := by
  induction pre with
  | nil => exact h
  | cons c t ih => exact firstPercentAux_cons_isSome c (t ++ l) ih

theorem firstPercentAux_at_42 (post : List Char) :
    firstPercentAux ('4' :: '2' :: '%' :: post) = some 42 :=
  rfl

/-- Claim C8 counterexample: the line `7% Downloading 42%` contains the
substring `Downloading 42%`, but the percent-extraction regex takes the
first percent token of the whole line, so the translator emits a 7-percent
event and no 42-percent event. -/
theorem parseProgress_counterexample :
    containsSub "7% Downloading 42%" "Downloading 42%" = true
    ∧ ProgressEvent.percent 42 ∉ parseProgress "7% Downloading 42%"
    ∧ parseProgress "7% Downloading 42%" =
        [.stage "Downloading...", .percent 7] := by
  decide

/-- Claim C8 amended: the translator is deterministic, and a line
containing `Downloading 42%` yields a downloading-stage event together
with a percent event whose value is the first percent token appearing in
the line — which is 42 when the line is exactly `Downloading 42%`, but an
earlier percent token elsewhere in the line takes precedence. -/
theorem parseProgress_downloading_line (line : String)
    (h : containsSub line "Downloading 42%" = true) :
    ProgressEvent.stage "Downloading..." ∈ parseProgress line
    ∧ (∃ n, ProgressEvent.percent n ∈ parseProgress line)
    ∧ parseProgress line = parseProgress line
    ∧ parseProgress "Downloading 42%" = [.stage "Downloading...", .percent 42] := by
  have hinf : "Downloading 42%".toList <:+: line.toList :=
    (listContains_iff _ _).mp h
  have hdl : containsSub line "Downloading" = true := by
    rw [containsSub, listContains_iff]
    have hsub : "Downloading".toList <:+: "Downloading 42%".toList :=
      ⟨[], " 42%".toList, by decide⟩
    exact hsub.trans hinf
  refine ⟨?_, ?_, rfl, by decide⟩
  · rw [parseProgress, stageEvents, if_pos (by rw [hdl]; rfl)]
    simp
  · obtain ⟨s, t, hst⟩ := hinf
    have hsplit : line.toList = (s ++ "Downloading ".toList) ++ ('4' :: '2' :: '%' :: t) := by
      rw [← hst]
      simp
    have hsome : (firstPercentAux line.toList).isSome = true := by
      rw [hsplit]
      exact firstPercentAux_append_isSome _ _ (by rw [firstPercentAux_at_42]; rfl)
    obtain ⟨n, hn⟩ := Option.isSome_iff_exists.mp hsome
    refine ⟨n, ?_⟩
    rw [parseProgress, hn]
    simp

/-- Witness for the amended C8 theorem at a concrete line. -/
theorem parseProgress_downloading_line_witness :
    containsSub "INFO Downloading 42% of track" "Downloading 42%" = true
    ∧ (ProgressEvent.stage "Downloading..." ∈ parseProgress "INFO Downloading 42% of track"
      ∧ (∃ n, ProgressEvent.percent n ∈ parseProgress "INFO Downloading 42% of track")
      ∧ parseProgress "INFO Downloading 42% of track" =
          parseProgress "INFO Downloading 42% of track"
      ∧ parseProgress "Downloading 42%" = [.stage "Downloading...", .percent 42]) :=
  ⟨by decide, parseProgress_downloading_line _ (by decide)⟩

/-- Claim C6 counterexample: an unreadable settings file (OSError on open
or read) is not caught by the `except (json.JSONDecodeError, KeyError)`
clause of `load_config`, so the exception propagates to the caller instead
of a default configuration being returned. -/
theorem load_config_counterexample :
    TidalNGConfigManager.load_config ⟨FileState.unreadable, none, []⟩ =
      Except.error "OSError: settings file could not be read" := rfl

/-- Claim C6 amended: `load_config` returns type-safe defaults for a
missing settings file and for one that fails JSON parsing, and returns a
rule-violating record rather than failing (violations are only logged) —
provided the parsed object contains no key that shadows a configuration
attribute the load path touches.  An unreadable file propagates its I/O
exception to the caller, and so does a parsable object carrying such a
shadowing key (for example `validate`), whose `setattr` or subsequent
`validate()` call raises an uncaught TypeError (as does validation of a
non-numeric loaded value). -/
theorem load_config_amended (w : Option TidalNGConfig) (b : List FileState)
    (d : List (String × PyVal)) (errs : List String)
    (hclean : loadShadowRaises d = false)
    (h : (TidalNGConfig.from_dict d).validate = some errs) :
    TidalNGConfigManager.load_config ⟨.missing, w, b⟩ =
        .ok (TidalNGConfig.defaults, ⟨.missing, some TidalNGConfig.defaults, b⟩)
    ∧ TidalNGConfigManager.load_config ⟨.corrupt, w, b⟩ =
        .ok (TidalNGConfig.defaults, ⟨.corrupt, some TidalNGConfig.defaults, b⟩)
    ∧ TidalNGConfigManager.load_config ⟨.content d, w, b⟩ =
        .ok (TidalNGConfig.from_dict d, ⟨.content d, some (TidalNGConfig.from_dict d), b⟩)
    ∧ (∃ e, TidalNGConfigManager.load_config ⟨.unreadable, w, b⟩ = .error e)
    ∧ (∃ e, TidalNGConfigManager.load_config
          ⟨.content [("validate", PyVal.str "x")], w, b⟩ = .error e) := by
  refine ⟨rfl, rfl, ?_, ⟨_, rfl⟩, ⟨_, rfl⟩⟩
  simp [TidalNGConfigManager.load_config, hclean, h]

/-- Witness for the amended C6 theorem: the empty JSON object carries no
shadowing key and loads as the default record, whose validation returns
the empty violation list. -/
theorem load_config_amended_witness :
    (loadShadowRaises [] = false
      ∧ (TidalNGConfig.from_dict []).validate = some [])
    ∧ (TidalNGConfigManager.load_config ⟨.missing, none, []⟩ =
          .ok (TidalNGConfig.defaults, ⟨.missing, some TidalNGConfig.defaults, []⟩)
      ∧ TidalNGConfigManager.load_config ⟨.corrupt, none, []⟩ =
          .ok (TidalNGConfig.defaults, ⟨.corrupt, some TidalNGConfig.defaults, []⟩)
      ∧ TidalNGConfigManager.load_config ⟨.content [], none, []⟩ =
          .ok (TidalNGConfig.from_dict [], ⟨.content [], some (TidalNGConfig.from_dict []), []⟩)
      ∧ (∃ e, TidalNGConfigManager.load_config ⟨.unreadable, none, []⟩ = .error e)
      ∧ (∃ e, TidalNGConfigManager.load_config
            ⟨.content [("validate", PyVal.str "x")], none, []⟩ = .error e)) :=
  ⟨⟨by decide, by decide⟩, load_config_amended none [] [] [] (by decide) (by decide)⟩

set_option maxHeartbeats 1000000 in
theorem from_dict_to_dict (c : TidalNGConfig) :
    TidalNGConfig.from_dict c.to_dict = c := by
  simp only [TidalNGConfig.from_dict, TidalNGConfig.to_dict, List.foldl_cons,
    List.foldl_nil, TidalNGConfig.setAttrKnown, keyField, TidalNGConfig.setField]
  simp +decide

/-- The serialized record uses only the 23 dataclass field names, none of
which is a load-raising shadow key. -/
theorem loadShadowRaises_to_dict (c : TidalNGConfig) :
    loadShadowRaises c.to_dict = false :=
  rfl

/-- Claim C5: for every valid configuration record, `save_config` succeeds
and a subsequent `load_config` returns a record equal to the one saved
(round-trip through the persisted JSON object). -/
theorem save_then_load_roundtrip (st : MgrState) (c : TidalNGConfig)
    (hv : c.validate = some []) :
    (TidalNGConfigManager.save_config st (some c)).1 = true
    ∧ TidalNGConfigManager.load_config (TidalNGConfigManager.save_config st (some c)).2 =
        .ok (c, (TidalNGConfigManager.save_config st (some c)).2) := by
  have h1 : TidalNGConfigManager.save_config st (some c) =
      (true, { TidalNGConfigManager.backupStep st with
                disk := .content c.to_dict, working := some c }) := by
    simp only [TidalNGConfigManager.save_config, hv]
  rw [h1]
  refine ⟨rfl, ?_⟩
  simp [TidalNGConfigManager.load_config, loadShadowRaises_to_dict,
    from_dict_to_dict, hv]

/-- Witness for the C5 round-trip theorem at the default record. -/
theorem save_then_load_roundtrip_witness :
    (TidalNGConfig.defaults.validate = some [])
    ∧ ((TidalNGConfigManager.save_config ⟨.missing, none, []⟩ (some TidalNGConfig.defaults)).1 = true
      ∧ TidalNGConfigManager.load_config
            (TidalNGConfigManager.save_config ⟨.missing, none, []⟩ (some TidalNGConfig.defaults)).2 =
          .ok (TidalNGConfig.defaults,
            (TidalNGConfigManager.save_config ⟨.missing, none, []⟩ (some TidalNGConfig.defaults)).2)) :=
  ⟨by decide, save_then_load_roundtrip _ _ (by decide)⟩

theorem parsedOptionsMap_congr (o1 o2 : String → Option PyVal) (conc : Option Int)
    (hq : o1 "quality" = o2 "quality")
    (hvq : o1 "video_quality" = o2 "video_quality")
    (hly : o1 "lyrics" = o2 "lyrics")
    (hcv : o1 "cover" = o2 "cover")
    (hpl : o1 "playlist" = o2 "playlist")
    (hfl : o1 "flac" = o2 "flac")
    (hvd : o1 "video" = o2 "video")
    (hcn : o1 "convert" = o2 "convert")
    (hsk : o1 "skip" = o2 "skip") :
    parsedOptionsMap o1 conc = parsedOptionsMap o2 conc := by
  funext t
  simp only [parsedOptionsMap, hq, hvq, hly, hcv, hpl, hfl, hvd, hcn, hsk]

/-- Claim C10: the session overlay written before launching the downloader
depends on the caller-supplied options only through the ten recognized
override keys — two calls whose option dicts agree on those keys (however
they differ elsewhere) produce the same settings map, so unrecognized keys
are silently dropped. -/
theorem overlay_depends_only_on_recognized_options (snap : String → Option PyVal)
    (path : String) (o1 o2 : String → Option PyVal)
    (h : ∀ k ∈ recognizedOptionKeys, o1 k = o2 k) :
    applyDownloadSettings snap path (some o1) = applyDownloadSettings snap path (some o2) := by
  have hq : o1 "quality" = o2 "quality" := h _ (by simp [recognizedOptionKeys])
  have hvq : o1 "video_quality" = o2 "video_quality" := h _ (by simp [recognizedOptionKeys])
  have hly : o1 "lyrics" = o2 "lyrics" := h _ (by simp [recognizedOptionKeys])
  have hcv : o1 "cover" = o2 "cover" := h _ (by simp [recognizedOptionKeys])
  have hpl : o1 "playlist" = o2 "playlist" := h _ (by simp [recognizedOptionKeys])
  have hco : o1 "concurrent" = o2 "concurrent" := h _ (by simp [recognizedOptionKeys])
  have hfl : o1 "flac" = o2 "flac" := h _ (by simp [recognizedOptionKeys])
  have hvd : o1 "video" = o2 "video" := h _ (by simp [recognizedOptionKeys])
  have hcn : o1 "convert" = o2 "convert" := h _ (by simp [recognizedOptionKeys])
  have hsk : o1 "skip" = o2 "skip" := h _ (by simp [recognizedOptionKeys])
  have hpm : ∀ conc, parsedOptionsMap o1 conc = parsedOptionsMap o2 conc :=
    fun conc => parsedOptionsMap_congr o1 o2 conc hq hvq hly hcv hpl hfl hvd hcn hsk
  have hp : parseOptions o1 = parseOptions o2 := by
    rw [parseOptions, parseOptions, hco]
    simp only [hpm]
  simp only [applyDownloadSettings, hp]

/-- Witness for the C10 theorem: two option dicts agreeing on the ten
recognized keys but differing on an unrecognized key yield the same
overlay. -/
theorem overlay_depends_only_on_recognized_options_witness :
    (∀ k ∈ recognizedOptionKeys,
        (fun k0 => if k0 = "quality" then some (PyVal.str "LOW")
                   else if k0 = "unrecognized_extra" then some (PyVal.int 1) else none) k =
        (fun k0 => if k0 = "quality" then some (PyVal.str "LOW") else none) k)
    ∧ applyDownloadSettings (fun _ => none) "/tmp/dl"
          (some (fun k0 => if k0 = "quality" then some (PyVal.str "LOW")
                           else if k0 = "unrecognized_extra" then some (PyVal.int 1) else none)) =
        applyDownloadSettings (fun _ => none) "/tmp/dl"
          (some (fun k0 => if k0 = "quality" then some (PyVal.str "LOW") else none)) :=
  ⟨by decide, overlay_depends_only_on_recognized_options _ _ _ _ (by decide)⟩

/-- One range check of `validate` on a numeric field: the field value must
be a number within the closed interval. -/
def rangeOk (v : PyVal) (lo hi : Int) : Bool :=
  match pyNum v with
  | some n => decide (lo ≤ n ∧ n ≤ hi)
  | none => false

/-- The conjunction of all checks of `TidalNGConfig.validate`, as a
Boolean: true exactly when `validate` returns an empty error list. -/
def validOk (c : TidalNGConfig) : Bool :=
  decide (c.quality_audio ∈ audioQualityValues) &&
  decide (c.quality_video ∈ videoQualityValues) &&
  rangeOk c.downloads_concurrent_max 1 10 &&
  rangeOk c.metadata_cover_dimension 1 5000 &&
  rangeOk c.retry_attempts 0 10 &&
  rangeOk c.timeout_seconds 1 3600 &&
  pyTruthy c.download_base_path &&
  pyTruthy c.path_binary_ffmpeg

theorem validate_some_nil_iff (c : TidalNGConfig) :
    c.validate = some [] ↔ validOk c = true := by
  rw [TidalNGConfig.validate, validOk]
  rcases h1 : pyNum c.downloads_concurrent_max with _ | n1 <;>
    rcases h2 : pyNum c.metadata_cover_dimension with _ | n2 <;>
      rcases h3 : pyNum c.retry_attempts with _ | n3 <;>
        rcases h4 : pyNum c.timeout_seconds with _ | n4 <;>
          simp [rangeOk, h1, h2, h3, h4, Int.lt_iff_add_one_le, and_assoc] <;>
          · intro _ _ _
            have b1 : n1 + 1 ≤ 11 ↔ n1 ≤ 10 := by omega
            have b2 : n2 + 1 ≤ 5001 ↔ n2 ≤ 5000 := by omega
            have b3 : n3 + 1 ≤ 11 ↔ n3 ≤ 10 := by omega
            have b4 : n4 + 1 ≤ 3601 ↔ n4 ≤ 3600 := by omega
            rw [b1, b2, b3, b4]

/-- Amended per-field rule table for `set_value`, following the spec text
of claim C2 as far as the code permits: this is the effective acceptance
condition combining the per-key check with the record validation performed
by `save_config`.  It differs from the claimed table in that retry-attempts
must be at least 1 (not 0), the two unnamed counters only need to be
positive integers, `chunk_size` is unconstrained, and unknown keys are
accepted. -/
def fieldRule (f : CfgField) (v : PyVal) : Bool :=
  match f with
  | .quality_audio => decide (v ∈ audioQualityValues)
  | .quality_video => decide (v ∈ videoQualityValues)
  | .downloads_concurrent_max => pyIsInstInt v && decide (1 ≤ pyIntOf v ∧ pyIntOf v ≤ 10)
  | .metadata_cover_dimension => pyIsInstInt v && decide (1 ≤ pyIntOf v ∧ pyIntOf v ≤ 5000)
  | .retry_attempts => pyIsInstInt v && decide (1 ≤ pyIntOf v ∧ pyIntOf v ≤ 10)
  | .timeout_seconds => pyIsInstInt v && decide (1 ≤ pyIntOf v ∧ pyIntOf v ≤ 3600)
  | .downloads_simultaneous_per_track_max => pyIsInstInt v && decide (1 ≤ pyIntOf v)
  | .album_track_num_pad_min => pyIsInstInt v && decide (1 ≤ pyIntOf v)
  | .lyrics_embed | .lyrics_file | .metadata_cover_embed | .cover_album_file
  | .metadata_replay_gain | .skip_existing | .extract_flac | .symlink_to_track
  | .video_download | .video_convert_mp4 | .playlist_create | .download_delay =>
      pyIsInstBool v
  | .download_base_path | .path_binary_ffmpeg =>
      (match v with | .str s => decide (0 < s.length) | _ => false)
  | .chunk_size => true

/-- Amended acceptance condition of `set_value` for a string key: the rule
of the named field; unconditional failure for a key whose `setattr` raises
or shadows an attribute the save path reads (`validate`, `to_dict`,
`__dataclass_fields__`, `__class__`, `__dict__`, `__weakref__`); and
unconditional acceptance for every other non-field key. -/
def setFieldRule (key : String) (v : PyVal) : Bool :=
  match attrKind key with
  | .field f => fieldRule f v
  | .inert => true
  | _ => false

theorem pyNum_of_isInstInt (v : PyVal) (h : pyIsInstInt v = true) :
    pyNum v = some (pyIntOf v) := by
  cases v <;> simp_all [pyIsInstInt, pyNum, pyIntOf]

theorem fieldRule_imp_fieldCheck (f : CfgField) (v : PyVal)
    (h : fieldRule f v = true) : fieldCheck f v = true := by
  cases f <;> simp [fieldRule, fieldCheck] at h ⊢ <;>
    first
      | exact h
      | (obtain ⟨h1, h2⟩ := h
         refine ⟨h1, ?_⟩
         omega)

theorem set_value_eq (st : MgrState) (c : TidalNGConfig)
    (hw : st.working = some c) (key : String) (v : PyVal) :
    TidalNGConfigManager.set_value st key v =
      if validateValue key v then
        match attrKind key with
        | .setattrRaises => Except.ok (false, st)
        | .shadowsValidate => Except.ok (false, st)
        | .shadowsSerialize =>
            match c.validate with
            | some [] => Except.ok (false, TidalNGConfigManager.backupStep st)
            | _ => Except.ok (false, st)
        | _ =>
            Except.ok (TidalNGConfigManager.save_config
              { st with working := some (c.setAttrKnown key v) } none)
      else Except.ok (false, st) := by
  rw [TidalNGConfigManager.set_value, hw]
  rfl

theorem keyField_of_attrKind_field (key : String) (f : CfgField)
    (h : attrKind key = .field f) : keyField key = some f := by
  rw [attrKind] at h
  rcases hk : keyField key with _ | f2
  · rw [hk] at h
    split_ifs at h
  · rw [hk] at h
    cases h
    rfl

theorem keyField_of_attrKind_inert (key : String)
    (h : attrKind key = .inert) : keyField key = none := by
  rw [attrKind] at h
  rcases hk : keyField key with _ | f2
  · rfl
  · rw [hk] at h
    cases h

theorem keyField_of_attrKind_shadowsValidate (key : String)
    (h : attrKind key = .shadowsValidate) : keyField key = none := by
  rw [attrKind] at h
  rcases hk : keyField key with _ | f2
  · rfl
  · rw [hk] at h
    cases h

theorem keyField_of_attrKind_shadowsSerialize (key : String)
    (h : attrKind key = .shadowsSerialize) : keyField key = none := by
  rw [attrKind] at h
  rcases hk : keyField key with _ | f2
  · rfl
  · rw [hk] at h
    cases h

theorem keyField_of_attrKind_setattrRaises (key : String)
    (h : attrKind key = .setattrRaises) : keyField key = none := by
  rw [attrKind] at h
  rcases hk : keyField key with _ | f2
  · rfl
  · rw [hk] at h
    cases h

theorem save_config_none_fst (st : MgrState) (c2 : TidalNGConfig)
    (h : st.working = some c2) :
    (TidalNGConfigManager.save_config st none).1 = validOk c2 := by
  rw [TidalNGConfigManager.save_config, h]
  rcases hvx : c2.validate with _ | l
  · have : validOk c2 = false := by
      rcases hb : validOk c2 with _ | _
      · rfl
      · rw [← validate_some_nil_iff] at hb
        rw [hb] at hvx
        cases hvx
    simp [this]
  · cases l with
    | nil =>
        have : validOk c2 = true := (validate_some_nil_iff c2).mp hvx
        simp [this]
    | cons e es =>
        have : validOk c2 = false := by
          rcases hb : validOk c2 with _ | _
          · rfl
          · rw [← validate_some_nil_iff] at hb
            rw [hb] at hvx
            cases hvx
        simp [this]

theorem validOk_setField (c : TidalNGConfig) (f : CfgField) (v : PyVal)
    (hc : validOk c = true) (hf : fieldCheck f v = true) :
    validOk (c.setField f v) = fieldRule f v := by
  simp only [validOk, Bool.and_eq_true] at hc
  obtain ⟨⟨⟨⟨⟨⟨⟨ha, hb⟩, hcn⟩, hdm⟩, hrt⟩, htm⟩, hbp⟩, hff⟩ := hc
  cases f with
  | download_base_path =>
      rcases v with n | b | s <;> simp [fieldCheck] at hf
      have hne : s ≠ "" := by
        intro he
        rw [he] at hf
        simp at hf
      have hps : pyTruthy (PyVal.str s) = true := by simp [pyTruthy, hne]
      simp [TidalNGConfig.setField, validOk, fieldRule,
        ha, hb, hcn, hdm, hrt, htm, hff, hps, hf]
  | path_binary_ffmpeg =>
      rcases v with n | b | s <;> simp [fieldCheck] at hf
      have hne : s ≠ "" := by
        intro he
        rw [he] at hf
        simp at hf
      have hps : pyTruthy (PyVal.str s) = true := by simp [pyTruthy, hne]
      simp [TidalNGConfig.setField, validOk, fieldRule,
        ha, hb, hcn, hdm, hrt, htm, hbp, hps, hf]
  | quality_audio =>
      simp [TidalNGConfig.setField, validOk, fieldRule,
        hb, hcn, hdm, hrt, htm, hbp, hff]
  | quality_video =>
      simp [TidalNGConfig.setField, validOk, fieldRule,
        ha, hcn, hdm, hrt, htm, hbp, hff]
  | downloads_concurrent_max =>
      simp only [fieldCheck] at hf
      rw [Bool.and_eq_true] at hf
      obtain ⟨hi, hp⟩ := hf
      have hnum := pyNum_of_isInstInt v hi
      have hrv : rangeOk v 1 10 = decide (1 ≤ pyIntOf v ∧ pyIntOf v ≤ 10) := by
        rw [rangeOk, hnum]
      simp [TidalNGConfig.setField, validOk, fieldRule, hrv,
        ha, hb, hdm, hrt, htm, hbp, hff, hi]
  | metadata_cover_dimension =>
      simp only [fieldCheck] at hf
      rw [Bool.and_eq_true] at hf
      obtain ⟨hi, hp⟩ := hf
      have hnum := pyNum_of_isInstInt v hi
      have hrv : rangeOk v 1 5000 = decide (1 ≤ pyIntOf v ∧ pyIntOf v ≤ 5000) := by
        rw [rangeOk, hnum]
      simp [TidalNGConfig.setField, validOk, fieldRule, hrv,
        ha, hb, hcn, hrt, htm, hbp, hff, hi]
  | retry_attempts =>
      simp only [fieldCheck] at hf
      rw [Bool.and_eq_true] at hf
      obtain ⟨hi, hp⟩ := hf
      simp only [decide_eq_true_eq] at hp
      have hnum := pyNum_of_isInstInt v hi
      have hrv : rangeOk v 0 10 = decide (0 ≤ pyIntOf v ∧ pyIntOf v ≤ 10) := by
        rw [rangeOk, hnum]
      have h0 : (0 : Int) ≤ pyIntOf v := by omega
      have h1 : (1 : Int) ≤ pyIntOf v := by omega
      simp [TidalNGConfig.setField, validOk, fieldRule, hrv,
        ha, hb, hcn, hdm, htm, hbp, hff, hi, h0, h1]
  | timeout_seconds =>
      simp only [fieldCheck] at hf
      rw [Bool.and_eq_true] at hf
      obtain ⟨hi, hp⟩ := hf
      have hnum := pyNum_of_isInstInt v hi
      have hrv : rangeOk v 1 3600 = decide (1 ≤ pyIntOf v ∧ pyIntOf v ≤ 3600) := by
        rw [rangeOk, hnum]
      simp [TidalNGConfig.setField, validOk, fieldRule, hrv,
        ha, hb, hcn, hdm, hrt, hbp, hff, hi]
  | downloads_simultaneous_per_track_max =>
      simp only [fieldCheck] at hf
      rw [Bool.and_eq_true] at hf
      obtain ⟨hi, hp⟩ := hf
      simp only [decide_eq_true_eq] at hp
      have h1 : (1 : Int) ≤ pyIntOf v := by omega
      simp [TidalNGConfig.setField, validOk, fieldRule,
        ha, hb, hcn, hdm, hrt, htm, hbp, hff, hi, h1]
  | album_track_num_pad_min =>
      simp only [fieldCheck] at hf
      rw [Bool.and_eq_true] at hf
      obtain ⟨hi, hp⟩ := hf
      simp only [decide_eq_true_eq] at hp
      have h1 : (1 : Int) ≤ pyIntOf v := by omega
      simp [TidalNGConfig.setField, validOk, fieldRule,
        ha, hb, hcn, hdm, hrt, htm, hbp, hff, hi, h1]
  | chunk_size =>
      simp [TidalNGConfig.setField, validOk, fieldRule,
        ha, hb, hcn, hdm, hrt, htm, hbp, hff]
  | download_delay =>
      simp only [fieldCheck] at hf
      simp [TidalNGConfig.setField, validOk, fieldRule,
        ha, hb, hcn, hdm, hrt, htm, hbp, hff, hf]
  | lyrics_embed =>
      simp only [fieldCheck] at hf
      simp [TidalNGConfig.setField, validOk, fieldRule,
        ha, hb, hcn, hdm, hrt, htm, hbp, hff, hf]
  | lyrics_file =>
      simp only [fieldCheck] at hf
      simp [TidalNGConfig.setField, validOk, fieldRule,
        ha, hb, hcn, hdm, hrt, htm, hbp, hff, hf]
  | metadata_cover_embed =>
      simp only [fieldCheck] at hf
      simp [TidalNGConfig.setField, validOk, fieldRule,
        ha, hb, hcn, hdm, hrt, htm, hbp, hff, hf]
  | cover_album_file =>
      simp only [fieldCheck] at hf
      simp [TidalNGConfig.setField, validOk, fieldRule,
        ha, hb, hcn, hdm, hrt, htm, hbp, hff, hf]
  | metadata_replay_gain =>
      simp only [fieldCheck] at hf
      simp [TidalNGConfig.setField, validOk, fieldRule,
        ha, hb, hcn, hdm, hrt, htm, hbp, hff, hf]
  | skip_existing =>
      simp only [fieldCheck] at hf
      simp [TidalNGConfig.setField, validOk, fieldRule,
        ha, hb, hcn, hdm, hrt, htm, hbp, hff, hf]
  | extract_flac =>
      simp only [fieldCheck] at hf
      simp [TidalNGConfig.setField, validOk, fieldRule,
        ha, hb, hcn, hdm, hrt, htm, hbp, hff, hf]
  | symlink_to_track =>
      simp only [fieldCheck] at hf
      simp [TidalNGConfig.setField, validOk, fieldRule,
        ha, hb, hcn, hdm, hrt, htm, hbp, hff, hf]
  | video_download =>
      simp only [fieldCheck] at hf
      simp [TidalNGConfig.setField, validOk, fieldRule,
        ha, hb, hcn, hdm, hrt, htm, hbp, hff, hf]
  | video_convert_mp4 =>
      simp only [fieldCheck] at hf
      simp [TidalNGConfig.setField, validOk, fieldRule,
        ha, hb, hcn, hdm, hrt, htm, hbp, hff, hf]
  | playlist_create =>
      simp only [fieldCheck] at hf
      simp [TidalNGConfig.setField, validOk, fieldRule,
        ha, hb, hcn, hdm, hrt, htm, hbp, hff, hf]

/-- The manager state backing the tests: default record on disk and loaded
as the working configuration, no backups yet. -/
def initialMgrState : MgrState :=
  ⟨.content TidalNGConfig.defaults.to_dict, some TidalNGConfig.defaults, []⟩

/-- Claim C2 counterexample: `set_value` succeeds on a key that names no
configuration field (the per-key check falls through to `return True`, the
`setattr` creates an inert instance attribute, and `save_config` validates
and persists the unchanged record), contradicting the claim that it fails
for every unknown key. -/
theorem set_value_unknown_key_counterexample :
    (TidalNGConfigManager.set_value initialMgrState "totally_unknown_key"
        (.str "x")).map Prod.fst = Except.ok true
    ∧ keyField "totally_unknown_key" = none :=
  ⟨rfl, rfl⟩

/-- Claim C2 amended: starting from a valid working record, `set_value`
succeeds exactly on the effective rule table actually enforced — quality
enumerations, concurrency 1-10, cover-dimension 1-5000, retry-attempts
1-10 (not 0-10), timeout 1-3600, positive integers for the per-track and
padding counters, strict booleans, non-empty strings for paths, anything
for chunk-size.  A key naming no configuration field succeeds (the
per-key check falls through to True and the fresh attribute is inert)
unless it names an existing non-field attribute that the save path needs
(`validate`, `to_dict`, `__dataclass_fields__`) or for which the `setattr`
itself raises (`__class__`, `__dict__`, `__weakref__`): those keys fail
through the caught TypeError. -/
theorem set_value_success_characterization (st : MgrState) (c : TidalNGConfig)
    (hw : st.working = some c) (hv : c.validate = some [])
    (key : String) (v : PyVal) :
    (TidalNGConfigManager.set_value st key v).map Prod.fst =
      Except.ok (setFieldRule key v) := by
  have hok : validOk c = true := (validate_some_nil_iff c).mp hv
  rw [set_value_eq st c hw key v]
  by_cases hvv : validateValue key v = true
  · rw [if_pos hvv]
    rcases hak : attrKind key with f | _ | _ | _ | _
    · have hk := keyField_of_attrKind_field key f hak
      have hattr : c.setAttrKnown key v = c.setField f v := by
        rw [TidalNGConfig.setAttrKnown, hk]
      have hfc : fieldCheck f v = true := by
        rw [validateValue, hk] at hvv
        exact hvv
      have hrule : setFieldRule key v = fieldRule f v := by
        rw [setFieldRule, hak]
      simp only [hak, Except.map]
      rw [hattr, hrule,
        save_config_none_fst { st with working := some (c.setField f v) }
          (c.setField f v) rfl,
        validOk_setField c f v hok hfc]
    · have hrule : setFieldRule key v = false := by
        rw [setFieldRule, hak]
      simp only [hak, Except.map]
      rw [hrule]
    · have hrule : setFieldRule key v = false := by
        rw [setFieldRule, hak]
      simp only [hak, hv, Except.map]
      rw [hrule]
    · have hrule : setFieldRule key v = false := by
        rw [setFieldRule, hak]
      simp only [hak, Except.map]
      rw [hrule]
    · have hk := keyField_of_attrKind_inert key hak
      have hattr : c.setAttrKnown key v = c := by
        rw [TidalNGConfig.setAttrKnown, hk]
      have hrule : setFieldRule key v = true := by
        rw [setFieldRule, hak]
      simp only [hak, Except.map]
      rw [hattr, hrule, save_config_none_fst { st with working := some c } c rfl, hok]
  · have hvv2 : validateValue key v = false := by
      rcases h2 : validateValue key v with _ | _
      · rfl
      · exact absurd h2 hvv
    rw [if_neg hvv]
    simp only [Except.map]
    rcases hk : keyField key with _ | f
    · rw [validateValue, hk] at hvv2
      cases hvv2
    · have hfcf : fieldCheck f v = false := by
        rw [validateValue, hk] at hvv2
        exact hvv2
      have hfr : fieldRule f v = false := by
        rcases hb : fieldRule f v with _ | _
        · rfl
        · have hcontra := fieldRule_imp_fieldCheck f v hb
          rw [hfcf] at hcontra
          cases hcontra
      have hak : attrKind key = .field f := by
        rw [attrKind, hk]
      have hrule2 : setFieldRule key v = false := by
        rw [setFieldRule, hak]
        exact hfr
      rw [hrule2]

/-- Witness for the amended C2 theorem: setting retry-attempts to 0 from
the default state is rejected (the per-key check demands a positive
value even though the record rule would allow 0). -/
theorem set_value_success_characterization_witness :
    (initialMgrState.working = some TidalNGConfig.defaults
      ∧ TidalNGConfig.defaults.validate = some [])
    ∧ (TidalNGConfigManager.set_value initialMgrState "retry_attempts"
          (.int 0)).map Prod.fst =
        Except.ok (setFieldRule "retry_attempts" (.int 0)) :=
  ⟨⟨rfl, by decide⟩,
    set_value_success_characterization initialMgrState TidalNGConfig.defaults
      rfl (by decide) "retry_attempts" (.int 0)⟩

/-- Claim C3 counterexample: setting concurrency to 11 from the valid
default state passes the per-key check (which only demands a positive
integer), mutates the in-memory working configuration via `setattr`, and
only then fails record validation inside `save_config` — so the operation
fails and the on-disk record is unchanged, but the manager working
configuration is left mutated, contradicting the claimed absence of any
state mutation. -/
theorem set_value_failed_save_mutates_counterexample :
    TidalNGConfigManager.set_value initialMgrState "downloads_concurrent_max"
        (.int 11) =
      Except.ok (false,
        ⟨.content TidalNGConfig.defaults.to_dict,
         some { TidalNGConfig.defaults with downloads_concurrent_max := .int 11 },
         []⟩)
    ∧ some { TidalNGConfig.defaults with downloads_concurrent_max := .int 11 } ≠
        initialMgrState.working := by
  refine ⟨rfl, ?_⟩
  decide

/-- Claim C3 amended: a value failing the per-key check makes `set_value`
fail with no state change at all; a value passing the per-key check but
failing record validation makes `save_config` refuse — the on-disk record
and the backups are unchanged and a violation list is produced — but the
in-memory working configuration retains the `setattr` mutation. -/
theorem set_value_failure_state_effects (st : MgrState) (c : TidalNGConfig)
    (key : String) (v v2 : PyVal) (e : String) (errs : List String)
    (hw : st.working = some c)
    (h1 : validateValue key v = true)
    (h2 : (c.setAttrKnown key v).validate = some (e :: errs))
    (h3 : validateValue key v2 = false) :
    TidalNGConfigManager.set_value st key v =
        Except.ok (false, { st with working := some (c.setAttrKnown key v) })
    ∧ TidalNGConfigManager.set_value st key v2 = Except.ok (false, st) := by
  constructor
  · rw [set_value_eq st c hw key v, if_pos h1]
    have hsave : TidalNGConfigManager.save_config
        { st with working := some (c.setAttrKnown key v) } none =
        (false, { st with working := some (c.setAttrKnown key v) }) := by
      rw [TidalNGConfigManager.save_config]
      simp only [h2]
    rcases hak : attrKind key with f | _ | _ | _ | _
    · simp only [hak]
      rw [hsave]
    · have hattr : c.setAttrKnown key v = c := by
        rw [TidalNGConfig.setAttrKnown, keyField_of_attrKind_shadowsValidate key hak]
      simp only [hak]
      rw [hattr, ← hw]
    · have hattr : c.setAttrKnown key v = c := by
        rw [TidalNGConfig.setAttrKnown, keyField_of_attrKind_shadowsSerialize key hak]
      rw [hattr] at h2
      simp only [hak, h2]
      rw [hattr, ← hw]
    · have hattr : c.setAttrKnown key v = c := by
        rw [TidalNGConfig.setAttrKnown, keyField_of_attrKind_setattrRaises key hak]
      simp only [hak]
      rw [hattr, ← hw]
    · simp only [hak]
      rw [hsave]
  · rw [set_value_eq st c hw key v2, if_neg (by simp [h3])]

/-- Witness for the amended C3 theorem at the concurrency field. -/
theorem set_value_failure_state_effects_witness :
    (initialMgrState.working = some TidalNGConfig.defaults
      ∧ validateValue "downloads_concurrent_max" (.int 11) = true
      ∧ (TidalNGConfig.defaults.setAttrKnown "downloads_concurrent_max"
            (.int 11)).validate =
          some ("Concurrent downloads must be between 1 and 10" :: [])
      ∧ validateValue "downloads_concurrent_max" (.str "x") = false)
    ∧ (TidalNGConfigManager.set_value initialMgrState "downloads_concurrent_max"
          (.int 11) =
        Except.ok (false,
          { initialMgrState with
              working := some (TidalNGConfig.defaults.setAttrKnown
                "downloads_concurrent_max" (.int 11)) })
      ∧ TidalNGConfigManager.set_value initialMgrState "downloads_concurrent_max"
          (.str "x") = Except.ok (false, initialMgrState)) :=
  ⟨⟨rfl, by decide, by decide, by decide⟩,
    set_value_failure_state_effects initialMgrState TidalNGConfig.defaults
      "downloads_concurrent_max" (.int 11) (.str "x")
      "Concurrent downloads must be between 1 and 10" [] rfl
      (by decide) (by decide) (by decide)⟩
